import Mathlib

/-!
Shallow embedding of `tsraild.py` (the tsraild daemon), covering the wire
codec (`decode_ts`), the persistent configuration (`PersistentConfig`,
`Policies`), the participant registry (`TSRailState` and its mutators and
projections), and the upstream session's reader loop and mute path
(`reader_step`, `mute_client_run`).

Conventions used throughout:
* Python `Optional[T]` is `Option T`; machine integers are `Int` (Python
  ints are unbounded, no overflow concerns arise).
* Python dictionaries keyed by `clid` are association lists
  `List (String × Client)`; Python dicts preserve insertion order and
  assignment to an existing key keeps its position, which `upsert` mirrors.
* A missing string field from `parse_kv` (`data.get(k)` returning `None`)
  is modelled as `""` where the code only tests truthiness, since `None`
  and `""` are both falsy and are treated identically at every use site
  relevant to the claims.
* Python truthiness of `Optional[int]` / `Optional[str]` values is
  `truthy_int` / `truthy_str`.
* `str.startswith` is `py_startswith` (code-point prefix test).
* `str.lower` is modelled on the ASCII range by `lower_key` (the source's
  nicknames of interest are compared by code point; Python's full Unicode
  case folding agrees with this on ASCII).
* Python's stable `list.sort(key=...)` is modelled by Mathlib's
  `List.insertionSort`, which is a stable sort; a stable sort by a total
  preorder is unique, so this is extensionally the sort Python performs.
-/

/-- Code-point prefix test on char lists: `chars_start pre s` is true iff
`pre` is a prefix of `s`. -/
def chars_start : List Char → List Char → Bool
  | [], _ => true
  | _ :: _, [] => false
  | p :: ps, c :: cs => p == c && chars_start ps cs

/-- Python `s.startswith(pre)`. -/
def py_startswith (s pre : String) : Bool :=
  chars_start pre.data s.data

/-- Python truthiness of an `Optional[int]`: `None` and `0` are falsy. -/
def truthy_int : Option Int → Bool
  | some n => n != 0
  | none => false

/-- Python truthiness of an `Optional[str]`: `None` and `""` are falsy. -/
def truthy_str : Option String → Bool
  | some s => s != ""
  | none => false

/-- The escape table of `decode_ts` (`mapping.get(escaped, escaped)`):
`\s`→space, `\p`→`|`, `\/`→`/`, `\\`→`\`, `\n`→LF, `\r`→CR, `\t`→TAB,
anything else verbatim. -/
def decode_map (e : Char) : Char :=
  if e = 's' then ' '
  else if e = 'p' then '|'
  else if e = '/' then '/'
  else if e = '\\' then '\\'
  else if e = 'n' then '\n'
  else if e = 'r' then '\r'
  else if e = 't' then '\t'
  else e

/-- The scanning loop of `decode_ts` over the character sequence: a `\`
with at least one following character consumes two characters and emits
the mapped character; any other character (including a `\` that is the
last character, where `i + 1 < len(value)` fails) is emitted verbatim. -/
def decode_ts_chars : List Char → List Char
  | [] => []
  | c :: rest =>
    if c = '\\' then
      match rest with
      | [] => ['\\']
      | e :: rest2 => decode_map e :: decode_ts_chars rest2
    else c :: decode_ts_chars rest

/-- Mirrors `decode_ts` on strings. -/
def decode_ts (value : String) : String :=
  ⟨decode_ts_chars value.data⟩

/-- The `Policies` dataclass with its field defaults. -/
structure Policies where
  auto_mute_unknown : Bool := true
  require_approved : Bool := true
  target_channel : Option Int := none
  target_channel_name : Option String := none
  show_ignored : Bool := false
deriving DecidableEq

/-- The JSON object written by `Policies.to_dict` (keys
`auto-mute-unknown`, `require-approved`, `target-channel`,
`target-channel-name`, `show-ignored`; `json.dump`/`json.load` round-trip
these bool/int/str/null values exactly, so the document is modelled
structurally). -/
structure PoliciesJson where
  auto_mute_unknown : Bool
  require_approved : Bool
  target_channel : Option Int
  target_channel_name : Option String
  show_ignored : Bool
deriving DecidableEq

/-- Mirrors `Policies.to_dict`. -/
def Policies.to_dict (p : Policies) : PoliciesJson :=
  { auto_mute_unknown := p.auto_mute_unknown
    require_approved := p.require_approved
    target_channel := p.target_channel
    target_channel_name := p.target_channel_name
    show_ignored := p.show_ignored }

/-- Mirrors `Policies.from_dict` evaluated on a document of the shape produced by
`to_dict`: all five kebab-case keys are present, so the snake_case
fallbacks of `data.get("target-channel") or data.get("target_channel")`
read an absent key and yield `None`.  Python's `or` returns its right
operand whenever the left is falsy, so a stored `0` (for
`target-channel`) or `""` (for `target-channel-name`) loads as `None`.
The boolean fields are read with `bool(...)` of a present `bool`, the
identity. -/
def Policies.from_saved (d : PoliciesJson) : Policies :=
  { auto_mute_unknown := d.auto_mute_unknown
    require_approved := d.require_approved
    target_channel :=
      match d.target_channel with
      | some n => if n ≠ 0 then some n else none
      | none => none
    target_channel_name :=
      match d.target_channel_name with
      | some s => if s ≠ "" then some s else none
      | none => none
    show_ignored := d.show_ignored }

/-- In-memory persistent configuration: the two uid sets and the policy
block (`PersistentConfig.__init__` state after `load`). -/
structure PersistentConfig where
  approved_uids : Finset String
  ignore_uids : Finset String
  policies : Policies
deriving DecidableEq

/-- The JSON document written by `PersistentConfig.save`:
`{"approved": sorted(approved_uids), "ignored": sorted(ignore_uids),
"policies": policies.to_dict()}`. -/
structure ConfigJson where
  approved : List String
  ignored : List String
  policies : PoliciesJson
deriving DecidableEq

/-- Mirrors `PersistentConfig.save` (the written document; Python `sorted` on a
set of strings is the lexicographic sort of its elements). -/
def PersistentConfig.save (c : PersistentConfig) : ConfigJson :=
  { approved := c.approved_uids.sort (· ≤ ·)
    ignored := c.ignore_uids.sort (· ≤ ·)
    policies := c.policies.to_dict }

/-- Mirrors `PersistentConfig.load` from an existing document:
`approved_uids = set(data.get("approved", []))`,
`ignore_uids = set(data.get("ignored", []))`,
`policies = Policies.from_dict(data.get("policies", {}))`. -/
def PersistentConfig.load (d : ConfigJson) : PersistentConfig :=
  { approved_uids := d.approved.toFinset
    ignore_uids := d.ignored.toFinset
    policies := Policies.from_saved d.policies }

/-- The `Client` dataclass. -/
structure Client where
  clid : String
  uid : String
  nickname : String
  channel_id : Option Int
  talking : Bool := false
  approved : Bool := false
  ignored : Bool := false
  muted_by_us : Bool := false
deriving DecidableEq

/-- The registry part of `TSRailState`: the persistent config it holds,
the clid-keyed client dict, and the self-identity fields read by the
claims.  (`channel_names`, `server_channel_name`, `schandlerid`,
`last_ts` and the connection back-reference are not consulted by any of
the claimed behaviours and are omitted.) -/
structure TSRailState where
  config : PersistentConfig
  clients : List (String × Client) := []
  server_channel_id : Option Int := none
  own_clid : Option String := none
  own_uid : Option String := none
  own_nickname : Option String := none
deriving DecidableEq

/-- Mirrors `TSRailState.monitor_channel_id`: if the target channel is truthy,
return it when self sits in it and `None` otherwise; if the target is
falsy (`None` or `0`), return the self channel. -/
def TSRailState.monitor_channel_id (s : TSRailState) : Option Int :=
  if truthy_int s.config.policies.target_channel then
    if s.server_channel_id = s.config.policies.target_channel then
      s.config.policies.target_channel
    else none
  else s.server_channel_id

/-- Mirrors `TSRailState.target_channel_active`:
`target is not None and current_channel is not None and current_channel == target`. -/
def TSRailState.target_channel_active (s : TSRailState) : Bool :=
  s.config.policies.target_channel.isSome && s.server_channel_id.isSome &&
    decide (s.server_channel_id = s.config.policies.target_channel)

/-- The `in_channel` computation at the top of `_apply_policies`:
`in_channel = monitor_channel is None or client.channel_id == monitor_channel`,
forced to `False` when a truthy target is set but the monitor is `None`. -/
def TSRailState.in_scope (s : TSRailState) (c : Client) : Bool :=
  let monitor := s.monitor_channel_id
  let in0 : Bool := monitor.isNone || decide (c.channel_id = monitor)
  if truthy_int s.config.policies.target_channel && monitor.isNone then false
  else in0

/-- Mirrors `TSRailState._apply_policies` on one client: re-derive the
`approved`/`ignored` flags from set membership, and report whether a
`clientmute` task is spawned (`in_channel` and `auto_mute_unknown` and
neither approved nor ignored nor already muted by us).  The spawned task
itself is `mute_client_run`. -/
def TSRailState.apply_policies (s : TSRailState) (c : Client) : Client × Bool :=
  let c2 := { c with
    approved := decide (c.uid ∈ s.config.approved_uids)
    ignored := decide (c.uid ∈ s.config.ignore_uids) }
  (c2, s.in_scope c && s.config.policies.auto_mute_unknown &&
        !c2.approved && !c2.ignored && !c2.muted_by_us)

/-- Mirrors `ClientQueryConnection._is_ok`: some response line starts with
`error id=0`. -/
def is_ok (lines : List String) : Bool :=
  lines.any (fun l => py_startswith l "error id=0")

/-- Mirrors `TSRailState._mute_client`: returns unchanged when `self.connection`
is `None`; otherwise awaits
`self.connection.send_command("clientmute clid=...")` — whose full
response is `resp` — and then sets `client.muted_by_us = True`
unconditionally, without inspecting `resp`. -/
def mute_client_run (has_connection : Bool) (resp : List String) (c : Client) : Client :=
  if has_connection then
    let _ := resp
    { c with muted_by_us := true }
  else c

/-- The self-skip test shared by `counts`, `build_users` and
`build_unknown_users`:
`if client.uid and self.own_uid and client.uid == self.own_uid: continue`. -/
def TSRailState.skip_self (s : TSRailState) (c : Client) : Bool :=
  c.uid != "" && truthy_str s.own_uid && decide (some c.uid = s.own_uid)

/-- The channel filter shared by `counts`, `build_users` and
`build_unknown_users`:
`if target_channel and client.channel_id != target_channel: continue`
(`target_channel` being the `monitor_channel_id()` result). -/
def out_of_scope (target : Option Int) (c : Client) : Bool :=
  truthy_int target && !decide (c.channel_id = target)

/-- The dictionary returned by `TSRailState.counts`. -/
structure Counts where
  approved_total : Nat
  present_approved : Nat
  present_unknown : Nat
  present_ignored : Nat
deriving DecidableEq

/-- Mirrors `TSRailState.counts`. -/
def TSRailState.counts (s : TSRailState) : Counts :=
  let target := s.monitor_channel_id
  if truthy_int s.config.policies.target_channel && target.isNone then
    { approved_total := s.config.approved_uids.card
      present_approved := 0
      present_unknown := 0
      present_ignored := 0 }
  else
    let included := (s.clients.map Prod.snd).filter
      (fun c => !s.skip_self c && !out_of_scope target c)
    { approved_total := s.config.approved_uids.card
      present_approved := (included.filter (fun c => !c.ignored && c.approved)).length
      present_unknown := (included.filter (fun c => !c.ignored && !c.approved)).length
      present_ignored := (included.filter (fun c => c.ignored)).length }

/-- The ASCII-range model of Python `str.lower()` as a code-point key:
uppercase `A`–`Z` map down by 32, everything else is unchanged. -/
def lower_key (s : String) : List Nat :=
  s.data.map (fun c => if 65 ≤ c.toNat ∧ c.toNat ≤ 90 then c.toNat + 32 else c.toNat)

/-- Lexicographic `≤` on code-point lists — the order Python uses to
compare the `str.lower()` sort keys. -/
def lex_le : List Nat → List Nat → Bool
  | [], _ => true
  | _ :: _, [] => false
  | a :: as, b :: bs =>
    if a < b then true else if b < a then false else lex_le as bs

/-- The sort key relation of `users.sort(key=lambda c: c.nickname.lower())`. -/
def nick_le (a b : Client) : Prop :=
  lex_le (lower_key a.nickname) (lower_key b.nickname) = true

instance : DecidableRel nick_le := fun a b =>
  inferInstanceAs (Decidable (lex_le (lower_key a.nickname) (lower_key b.nickname) = true))

/-- Totality of the lexicographic key order (packaged as a definition so
the order instances below can be declared with the data model). -/
def lex_le_total_pf : ∀ a b : List Nat, lex_le a b = true ∨ lex_le b a = true := by
  intro a
  induction a with
  | nil => intro b; left; rfl
  | cons x xs ih =>
    intro b
    cases b with
    | nil => right; rfl
    | cons y ys =>
      by_cases hxy : x < y
      · left; simp [lex_le, hxy]
      · by_cases hyx : y < x
        · right; simp [lex_le, hyx]
        · have hx_eq : x = y := by omega
          subst hx_eq
          rcases ih ys with h | h
          · left; simp [lex_le, h]
          · right; simp [lex_le, h]

/-- Transitivity of the lexicographic key order. -/
def lex_le_trans_pf : ∀ a b c : List Nat,
    lex_le a b = true → lex_le b c = true → lex_le a c = true := by
  intro a
  induction a with
  | nil => intro b c hab hbc; rfl
  | cons x xs ih =>
    intro b c hab hbc
    cases b with
    | nil => simp [lex_le] at hab
    | cons y ys =>
      cases c with
      | nil => simp [lex_le] at hbc
      | cons z zs =>
        simp only [lex_le] at hab hbc ⊢
        split_ifs at hab hbc ⊢ <;>
          first
            | rfl
            | (exact ih ys zs hab hbc)
            | (exact absurd hab Bool.false_ne_true)
            | (exact absurd hbc Bool.false_ne_true)
            | (exfalso; omega)

instance : IsTotal Client nick_le :=
  ⟨fun _ _ => lex_le_total_pf _ _⟩

instance : IsTrans Client nick_le :=
  ⟨fun _ _ _ => lex_le_trans_pf _ _ _⟩

/-- Python's stable `list.sort(key=lambda c: c.nickname.lower())`,
modelled as a stable sort by `nick_le`. -/
def py_sort_by_nick (l : List Client) : List Client :=
  List.insertionSort nick_le l

/-- One entry of the list returned by `build_users` (the `assets` field,
derived purely from the filesystem, is omitted). -/
structure UserEntry where
  uid : String
  nickname : String
  talking : Bool
  approved : Bool
  ignored : Bool
deriving DecidableEq

/-- One entry of the list returned by `build_unknown_users`. -/
structure UnknownEntry where
  uid : String
  nickname : String
  channel_id : Option Int
deriving DecidableEq

/-- The entry dictionary `build_users` emits for one client (minus the
filesystem-derived `assets`). -/
def user_entry_of (c : Client) : UserEntry :=
  { uid := c.uid, nickname := c.nickname, talking := c.talking,
    approved := c.approved, ignored := c.ignored }

/-- The entry dictionary `build_unknown_users` emits for one client. -/
def unknown_entry_of (c : Client) : UnknownEntry :=
  { uid := c.uid, nickname := c.nickname, channel_id := c.channel_id }

/-- The filtering loop of `build_users`: skip self, skip out-of-channel,
skip ignored unless `show_ignored`, skip unapproved when
`require_approved`. -/
def TSRailState.users_filtered (s : TSRailState) : List Client :=
  (s.clients.map Prod.snd).filter (fun c =>
    !s.skip_self c && !out_of_scope s.monitor_channel_id c &&
    !(c.ignored && !s.config.policies.show_ignored) &&
    !(s.config.policies.require_approved && !c.approved))

/-- Mirrors `TSRailState.build_users`. -/
def TSRailState.build_users (s : TSRailState) : List UserEntry :=
  if truthy_int s.config.policies.target_channel && s.monitor_channel_id.isNone then
    []
  else
    (py_sort_by_nick s.users_filtered).map user_entry_of

/-- The filtering loop of `build_unknown_users`: skip self, skip
out-of-channel, skip approved-or-ignored. -/
def TSRailState.unknowns_filtered (s : TSRailState) : List Client :=
  (s.clients.map Prod.snd).filter (fun c =>
    !s.skip_self c && !out_of_scope s.monitor_channel_id c &&
    !(c.approved || c.ignored))

/-- Mirrors `TSRailState.build_unknown_users`. -/
def TSRailState.build_unknown_users (s : TSRailState) : List UnknownEntry :=
  if truthy_int s.config.policies.target_channel && s.monitor_channel_id.isNone then
    []
  else
    (py_sort_by_nick s.unknowns_filtered).map unknown_entry_of

/-! ## Registry mutators

Each function below mirrors one mutating method of `TSRailState` (or the
client-list replacement in `ClientQueryConnection._refresh_clients`).  The
`asyncio.create_task(...)` calls that fire `_mute_client` or channel-name
refreshes are connection side effects; the registry effect of a completed
mute task is modelled separately as `mute_done`.  `self.config.save()`
writes the disk file and has no in-memory effect. -/

/-- Python dict assignment `d[k] = v`: replaces the value in place when
the key exists (keeping its position), appends otherwise. -/
def upsert (k : String) (v : Client) : List (String × Client) → List (String × Client)
  | [] => [(k, v)]
  | p :: rest => if p.1 = k then (k, v) :: rest else p :: upsert k v rest

/-- Python `del d[k]`. -/
def erase_key (k : String) (l : List (String × Client)) : List (String × Client) :=
  l.filter (fun p => p.1 != k)

/-- Python `k in d` / `d.get(k)`. -/
def lookup_clid (k : String) (l : List (String × Client)) : Option Client :=
  (l.find? (fun p => p.1 == k)).map Prod.snd

/-- In-place mutation `f` of the client stored under `k` (no-op when the
key is absent). -/
def update_clid (k : String) (f : Client → Client) (l : List (String × Client)) :
    List (String × Client) :=
  l.map (fun p => if p.1 = k then (p.1, f p.2) else p)

/-- Mirrors `for client in self.clients.values(): self._apply_policies(client)` —
re-derives every client's flags against the current state (the spawned
mute tasks are not part of the registry state). -/
def TSRailState.apply_policies_all (s : TSRailState) : TSRailState :=
  { s with clients := s.clients.map (fun p => (p.1, (s.apply_policies p.2).1)) }

/-- Mirrors `TSRailState._client_enter`.  `cid` is the parsed
`data.get("ctid") or data.get("cid")` value (`none` when absent or empty).
The channel-name refresh task spawned on channel adoption is a connection
side effect and is not part of the registry state. -/
def TSRailState.client_enter (s : TSRailState) (clid uid nickname : String)
    (cid : Option Int) : TSRailState :=
  let s1 := if s.server_channel_id = none then { s with server_channel_id := cid } else s
  if s1.own_clid = some clid then
    { s1 with own_uid := some uid, own_nickname := some nickname }
  else
    let c : Client :=
      { clid := clid, uid := uid, nickname := nickname, channel_id := cid
        approved := decide (uid ∈ s1.config.approved_uids)
        ignored := decide (uid ∈ s1.config.ignore_uids) }
    let s2 := { s1 with clients := upsert clid c s1.clients }
    { s2 with clients := update_clid clid (fun c0 => (s2.apply_policies c0).1) s2.clients }

/-- Mirrors `TSRailState._client_left` (the omitted `server_channel_name` reset
has no bearing on the modelled fields). -/
def TSRailState.client_left (s : TSRailState) (clid : String) : TSRailState :=
  if clid ≠ "" ∧ s.own_clid = some clid then
    { s with server_channel_id := none }
  else if clid ≠ "" ∧ (lookup_clid clid s.clients).isSome then
    { s with clients := erase_key clid s.clients }
  else s

/-- Mirrors `TSRailState._client_moved`: an own move updates the self channel and
re-applies policy to every client; independently, a move of a registered
clid updates that client's channel and re-applies policy to it. -/
def TSRailState.client_moved (s : TSRailState) (clid : String) (cid : Option Int) :
    TSRailState :=
  let s1 := if clid ≠ "" ∧ s.own_clid = some clid then
      TSRailState.apply_policies_all { s with server_channel_id := cid }
    else s
  if clid ≠ "" ∧ (lookup_clid clid s1.clients).isSome then
    let s2 := { s1 with
      clients := update_clid clid (fun c => { c with channel_id := cid }) s1.clients }
    { s2 with clients := update_clid clid (fun c => (s2.apply_policies c).1) s2.clients }
  else s1

/-- Mirrors `TSRailState._talk_status`: `talking = (status == "1")`. -/
def TSRailState.talk_status (s : TSRailState) (clid status : String) : TSRailState :=
  if clid ≠ "" ∧ (lookup_clid clid s.clients).isSome then
    { s with clients := update_clid clid (fun c => { c with talking := decide (status = "1") }) s.clients }
  else s

/-- Mirrors `TSRailState._client_updated`; `nickname` is
`decode_ts(data["client_nickname"])` when the key is present.  (The
Python corner where both `data.get("clid")` and `own_clid` are `None`,
which updates `own_nickname`, is outside the modelled field domain and
touches no claimed behaviour.) -/
def TSRailState.client_updated (s : TSRailState) (clid : String)
    (nickname : Option String) : TSRailState :=
  if clid = "" ∨ (lookup_clid clid s.clients).isNone then
    if s.own_clid = some clid ∧ nickname.isSome then { s with own_nickname := nickname }
    else s
  else
    match nickname with
    | some n => { s with clients := update_clid clid (fun c => { c with nickname := n }) s.clients }
    | none => s

/-- The identity capture of `ClientQueryConnection._update_identity` for a
`whoami` response line starting with `clid`: `if data.get("cid"):` stores
`int(data["cid"])` (the string `"0"` is truthy, so `cid=0` stores `0`);
`if data.get("clid"):` stores `own_clid`.  `cid_field` is `none` when the
key is absent or its value empty, `some n` for the numeral string `n`. -/
def TSRailState.update_identity (s : TSRailState) (clid_field : String)
    (cid_field : Option Int) : TSRailState :=
  let s1 := match cid_field with
    | some n => { s with server_channel_id := some n }
    | none => s
  if clid_field ≠ "" then { s1 with own_clid := some clid_field } else s1

/-- Mirrors `TSRailState.approve_uid`: add to the approved set; every client with
that uid becomes `approved` and has `muted_by_us` cleared. -/
def TSRailState.approve_uid (s : TSRailState) (uid : String) : TSRailState :=
  { s with
    config := { s.config with approved_uids := insert uid s.config.approved_uids }
    clients := s.clients.map (fun p =>
      if p.2.uid = uid then (p.1, { p.2 with approved := true, muted_by_us := false }) else p) }

/-- Mirrors `TSRailState.unapprove_uid`. -/
def TSRailState.unapprove_uid (s : TSRailState) (uid : String) : TSRailState :=
  { s with
    config := { s.config with approved_uids := s.config.approved_uids.erase uid }
    clients := s.clients.map (fun p =>
      if p.2.uid = uid then (p.1, { p.2 with approved := false }) else p) }

/-- Mirrors `TSRailState.ignore_uid`. -/
def TSRailState.ignore_uid (s : TSRailState) (uid : String) : TSRailState :=
  { s with
    config := { s.config with ignore_uids := insert uid s.config.ignore_uids }
    clients := s.clients.map (fun p =>
      if p.2.uid = uid then (p.1, { p.2 with ignored := true }) else p) }

/-- Mirrors `TSRailState.unignore_uid`. -/
def TSRailState.unignore_uid (s : TSRailState) (uid : String) : TSRailState :=
  { s with
    config := { s.config with ignore_uids := s.config.ignore_uids.erase uid }
    clients := s.clients.map (fun p =>
      if p.2.uid = uid then (p.1, { p.2 with ignored := false }) else p) }

/-- Mirrors `TSRailState.apply_target_channel`: store both policy fields, then
re-apply policy to every client (the `server_channel_name` reset and the
`config.save()` flush have no effect on the modelled fields). -/
def TSRailState.apply_target_channel (s : TSRailState) (channel_id : Option Int)
    (channel_name : Option String) : TSRailState :=
  TSRailState.apply_policies_all
    { s with config := { s.config with policies :=
        { s.config.policies with target_channel := channel_id, target_channel_name := channel_name } } }

/-- Mirrors `TSRailState.clear_clients`. -/
def TSRailState.clear_clients (s : TSRailState) : TSRailState :=
  { s with clients := [] }

/-- The completion of a spawned `_mute_client(client)` task while the
connection object is attached: sets `muted_by_us` on the captured client
(a no-op if the clid has been removed, in which case the detached object
is mutated without registry effect). -/
def TSRailState.mute_done (s : TSRailState) (clid : String) : TSRailState :=
  { s with clients := update_clid clid (fun c => { c with muted_by_us := true }) s.clients }

/-- One record of a `clientlist -voice -uid` response as consumed by
`_refresh_clients` (`clid`, `client_unique_identifier`, decoded
`client_nickname`, parsed `cid`). -/
structure RawEntry where
  clid : String
  uid : String
  nickname : String
  cid : Option Int
deriving DecidableEq

/-- The record loop of `_refresh_clients`: entries without a clid are
dropped; the entry matching `own_clid` refreshes the self identity and is
not registered; every other entry becomes a fresh `Client` with flags
derived from the sets. -/
def refresh_clients_loop :
    TSRailState → List (String × Client) → List RawEntry → TSRailState × List (String × Client)
  | s, acc, [] => (s, acc)
  | s, acc, e :: rest =>
    if e.clid = "" then refresh_clients_loop s acc rest
    else if s.own_clid = some e.clid then
      refresh_clients_loop
        { s with own_uid := some e.uid, own_nickname := some e.nickname,
                 server_channel_id := e.cid } acc rest
    else
      let c : Client :=
        { clid := e.clid, uid := e.uid, nickname := e.nickname, channel_id := e.cid
          approved := decide (e.uid ∈ s.config.approved_uids)
          ignored := decide (e.uid ∈ s.config.ignore_uids) }
      refresh_clients_loop s (upsert e.clid c acc) rest

/-- Mirrors `ClientQueryConnection._refresh_clients` after a successful
`clientlist`: the registry is replaced wholesale by the freshly built
dict, then `_apply_policies` runs over every new client. -/
def TSRailState.refresh_clients (s : TSRailState) (entries : List RawEntry) : TSRailState :=
  let r := refresh_clients_loop s [] entries
  TSRailState.apply_policies_all { r.1 with clients := r.2 }

/-- One registry mutation, covering every mutator reachable from
notification handling, resync, the operator commands and the mute task. -/
inductive Op where
  | enter (clid uid nickname : String) (cid : Option Int)
  | left_view (clid : String)
  | moved (clid : String) (cid : Option Int)
  | talk (clid status : String)
  | updated (clid : String) (nickname : Option String)
  | identity (clid_field : String) (cid_field : Option Int)
  | approve (uid : String)
  | unapprove (uid : String)
  | ignore_u (uid : String)
  | unignore_u (uid : String)
  | set_target (cid : Option Int) (name : Option String)
  | resync (entries : List RawEntry)
  | clear_c
  | mute_done_op (clid : String)
deriving DecidableEq

/-- Dispatch one mutation to its mutator. -/
def apply_op (s : TSRailState) : Op → TSRailState
  | .enter clid uid nickname cid => s.client_enter clid uid nickname cid
  | .left_view clid => s.client_left clid
  | .moved clid cid => s.client_moved clid cid
  | .talk clid status => s.talk_status clid status
  | .updated clid nickname => s.client_updated clid nickname
  | .identity clid_field cid_field => s.update_identity clid_field cid_field
  | .approve uid => s.approve_uid uid
  | .unapprove uid => s.unapprove_uid uid
  | .ignore_u uid => s.ignore_uid uid
  | .unignore_u uid => s.unignore_uid uid
  | .set_target cid name => s.apply_target_channel cid name
  | .resync entries => s.refresh_clients entries
  | .clear_c => s.clear_clients
  | .mute_done_op clid => s.mute_done clid

/-- A sequence of registry mutations applied in order. -/
def run_ops (s : TSRailState) (ops : List Op) : TSRailState :=
  ops.foldl apply_op s

/-- The daemon's registry at startup: the loaded config and an empty
client dict, identity unset. -/
def init_state (cfg : PersistentConfig) : TSRailState :=
  { config := cfg }

/-! ## Upstream session reader loop and disconnect path -/

/-- The observable state of `ClientQueryConnection._reader_loop` while a
request is pending: `pending_active` models `self.pending is not None`,
`result` models the future's resolution (`none` = not done), `buffer` is
`self.pending_buffer`, `writes` the raw bytes written back upstream, and
`notifications` the lines routed to `state.handle_notification`. -/
structure ReaderState where
  pending_active : Bool
  buffer : List String
  result : Option (List String)
  writes : List String
  notifications : List String
deriving DecidableEq

/-- One iteration of the `_reader_loop` body on a decoded, stripped line:
empty lines are skipped; `notify*` lines are dispatched to the registry;
`error id=1796` answers with a bare newline (the writer is live for the
whole life of the reader task) and is neither buffered nor a terminator;
otherwise, with a pending request, the line is buffered and, if it starts
with `error ` and the future is not yet done, resolves the future with
the buffer collected so far; without a pending request the line is
dropped. -/
def reader_step (st : ReaderState) (line : String) : ReaderState :=
  if line = "" then st
  else if py_startswith line "notify" then
    { st with notifications := st.notifications ++ [line] }
  else if py_startswith line "error id=1796" then
    { st with writes := st.writes ++ ["\n"] }
  else if st.pending_active then
    let st1 := { st with buffer := st.buffer ++ [line] }
    if py_startswith line "error " && st1.result.isNone then
      { st1 with result := some st1.buffer }
    else st1
  else st

/-- The reader loop over a sequence of received lines. -/
def reader_run (st : ReaderState) (lines : List String) : ReaderState :=
  lines.foldl reader_step st

/-- The reader state immediately after `send_command` has written a
command and begun awaiting: a fresh pending future and an empty buffer. -/
def pending_start : ReaderState :=
  { pending_active := true, buffer := [], result := none, writes := [], notifications := [] }

/-- The link flags of `ClientQueryConnection`. -/
structure ConnFlags where
  link_ok : Bool
  auth_ok : Bool
deriving DecidableEq

/-- The `except`/`finally` path of `ClientQueryConnection.run` taken when
the reader loop ends (EOF or I/O error): `link_ok` and `auth_ok` are
cleared, the registry is cleared (`Op.clear_c` on the registry side), and
the writer and reader are dropped.  Nothing resolves or cancels
`self.pending`: the reader-side pending state is returned unchanged. -/
def on_disconnect (st : ReaderState) (f : ConnFlags) : ReaderState × ConnFlags :=
  let _ := f
  (st, { link_ok := false, auth_ok := false })

/-- The synthetic response that `send_command` returns — only on entry,
when `self.writer or self.reader` is already gone at call time. -/
def not_connected_resp : List String :=
  ["error id=2569 msg=not\\sconnected"]

/-! ## Concrete scenario inputs used by witnesses and counterexamples -/

/-- An empty persistent configuration with default policies. -/
def cfg_empty : PersistentConfig := ⟨∅, ∅, {}⟩

/-- A configuration exercising the round-trip (nonzero target channel,
non-empty target channel name, one approved uid). -/
def cfg_rt : PersistentConfig :=
  ⟨{"u1"}, ∅, { target_channel := some 5, target_channel_name := some "Lobby" }⟩

/-- A configuration whose target channel is the integer `0`. -/
def cfg_zero : PersistentConfig :=
  ⟨∅, ∅, { target_channel := some 0 }⟩

/-- A client used by the mute-path scenarios. -/
def client_x : Client :=
  { clid := "7", uid := "u", nickname := "n", channel_id := some 5 }

/-- The state with the policy target cleared — the "no target channel
set" comparison point of the truthiness claims. -/
def clear_target (s : TSRailState) : TSRailState :=
  { s with config := { s.config with policies :=
      { s.config.policies with target_channel := none } } }

/-- Mutations reaching a state with `own_uid = ""`: the self entry of a
`whoami` fixes `own_clid = "1"`; an enter-view for the own clid with no
`client_unique_identifier` field stores `own_uid = ""`; a second
anonymous enter-view registers a participant with `uid = ""`. -/
def ops_c5 : List Op :=
  [.identity "1" none, .enter "1" "" "Bot" (some 5), .enter "2" "" "Anon" (some 5)]

/-- The registry reached by `ops_c5`. -/
def st_c5 : TSRailState := run_ops (init_state cfg_empty) ops_c5

/-- Mutations reaching a registry with a non-empty `own_uid` and one
approved participant in the monitored channel. -/
def ops_c5w : List Op :=
  [.identity "9" none, .enter "9" "bot" "Bot" (some 5), .approve "u",
   .enter "2" "u" "Alice" (some 5)]

/-- The registry reached by `ops_c5w`. -/
def st_c5w : TSRailState := run_ops (init_state cfg_empty) ops_c5w

/-- Mutations reaching a state with `target_channel = 0` (operator command
`policy target-channel 0` parses the integer `0` and applies it) while
self sits in channel 5 with one unknown participant there. -/
def ops_c6 : List Op :=
  [.identity "1" (some 5), .set_target (some 0) (some "0"),
   .enter "2" "u2" "Anon" (some 5)]

/-- The registry reached by `ops_c6`. -/
def st_c6 : TSRailState := run_ops (init_state cfg_empty) ops_c6

/-- Mutations reaching a state whose nonzero target channel 6 differs from
the self channel 5, with one participant in channel 5. -/
def ops_c6w : List Op :=
  [.identity "1" (some 5), .set_target (some 6) (some "Target"),
   .enter "2" "u2" "Anon" (some 5)]

/-- The registry reached by `ops_c6w`. -/
def st_c6w : TSRailState := run_ops (init_state cfg_empty) ops_c6w

/-- Mutations reaching a state with `target_channel = 0` while the self
channel id is also `0` (a `whoami` line `clid=1 cid=0` stores `0` because
the string `"0"` is truthy). -/
def ops_c10 : List Op :=
  [.identity "1" (some 0), .set_target (some 0) (some "0")]

/-- The registry reached by `ops_c10`. -/
def st_c10 : TSRailState := run_ops (init_state cfg_empty) ops_c10

/-- Four approved participants: nicknames `"b"`, `""`, `"a"`, `"a"` in
registry insertion order, the duplicate nickname pair carrying uids `"z"`
then `"b"` (descending). -/
def ops_c8 : List Op :=
  [.approve "u1", .approve "u2", .approve "z", .approve "b",
   .enter "1" "u1" "b" none, .enter "2" "u2" "" none,
   .enter "3" "z" "a" none, .enter "4" "b" "a" none]

/-- The registry reached by `ops_c8`. -/
def st_c8 : TSRailState := run_ops (init_state cfg_empty) ops_c8

/-- A mixed mutation sequence used to witness the flag invariant. -/
def ops_c3w : List Op :=
  [.approve "u", .enter "1" "u" "A" (some 2), .ignore_u "v",
   .enter "2" "v" "B" none, .moved "2" (some 2), .unapprove "u",
   .resync [⟨"3", "w", "C", some 1⟩], .mute_done_op "3", .talk "3" "1",
   .set_target (some 2) (some "Room"), .left_view "1", .clear_c]

/-- The derived-flag consistency of one client against a configuration:
`approved ⇔ uid ∈ approved_uids` and `ignored ⇔ uid ∈ ignore_uids`. -/
def flagsC (cfg : PersistentConfig) (c : Client) : Prop :=
  c.approved = decide (c.uid ∈ cfg.approved_uids) ∧
  c.ignored = decide (c.uid ∈ cfg.ignore_uids)

/-- Flag consistency of every registered client against a configuration. -/
def flags_ok₂ (cfg : PersistentConfig) (cl : List (String × Client)) : Prop :=
  ∀ p ∈ cl, flagsC cfg p.2

/-- The registry invariant of the claims: every registered client's
`approved`/`ignored` flags agree with membership of its uid in the
configured sets. -/
def flags_ok (s : TSRailState) : Prop :=
  flags_ok₂ s.config s.clients

/-- The sort key relation lifted to `build_users` entries. -/
def entry_nick_le (a b : UserEntry) : Prop :=
  lex_le (lower_key a.nickname) (lower_key b.nickname) = true

/-! ## Theorems -/

/-- Rewrite: decoding the empty sequence. -/
theorem decode_ts_chars_nil : decode_ts_chars [] = [] := rfl

/-- Rewrite: a lone trailing backslash is emitted verbatim. -/
theorem decode_ts_chars_single : decode_ts_chars ['\\'] = ['\\'] := rfl

/-- Rewrite: a backslash with a following character consumes both. -/
theorem decode_ts_chars_esc (c : Char) (rest : List Char) :
    decode_ts_chars ('\\' :: c :: rest) = decode_map c :: decode_ts_chars rest := rfl

/-- Rewrite: a non-backslash character is emitted verbatim. -/
theorem decode_ts_chars_cons (c : Char) (rest : List Char) (hc : c ≠ '\\') :
    decode_ts_chars (c :: rest) = c :: decode_ts_chars rest := by
  conv_lhs => rw [decode_ts_chars.eq_def]
  simp [hc]

/-- Splitting lemma for the decoder: when the left part does not end in a
backslash, no escape pair straddles the split, so decoding distributes
over the concatenation. -/
theorem decode_ts_chars_append (l t : List Char) (h : l.getLast? ≠ some '\\') :
    decode_ts_chars (l ++ t) = decode_ts_chars l ++ decode_ts_chars t := by
  induction l using decode_ts_chars.induct with
  | case1 => simp [decode_ts_chars_nil]
  | case2 => simp at h
  | case3 c e ih =>
    have h2 : e.getLast? ≠ some '\\' := by
      cases e with
      | nil => simp
      | cons x xs =>
        rw [List.getLast?_cons_cons, List.getLast?_cons_cons] at h
        exact h
    simp [decode_ts_chars_esc, ih h2]
  | case4 c rest hc ih =>
    have h2 : rest.getLast? ≠ some '\\' := by
      cases rest with
      | nil => simp
      | cons x xs =>
        rw [List.getLast?_cons_cons] at h
        exact h
    simp [List.cons_append, decode_ts_chars_cons _ _ hc, ih h2]

/-- Claim C9: `decode_ts` is total on every input — its recursion
consumes its input structurally, so it never reads past the end (the
output is never longer than the input) — and a backslash standing as the
final character of the input, with no following character to escape, is
emitted verbatim: appending `\` to any input not already ending in `\`
appends a literal `\` to the decoded output. -/
theorem c9_decode_ts_total_trailing_backslash :
    (∀ l : List Char, (decode_ts_chars l).length ≤ l.length) ∧
    (∀ l : List Char, l.getLast? ≠ some '\\' →
      decode_ts_chars (l ++ ['\\']) = decode_ts_chars l ++ ['\\']) := by
  constructor
  · intro l
    induction l using decode_ts_chars.induct with
    | case1 => simp [decode_ts_chars_nil]
    | case2 => simp [decode_ts_chars_single]
    | case3 c e ih =>
      rw [decode_ts_chars_esc]
      simp only [List.length_cons]
      omega
    | case4 c rest hc ih =>
      rw [decode_ts_chars_cons _ _ hc]
      simp only [List.length_cons]
      omega
  · intro l h
    rw [decode_ts_chars_append l ['\\'] h]
    rfl

/-- Witness for C9 at a concrete input: `"ab\"` decodes to `"ab\"`. -/
theorem c9_witness :
    (['a', 'b'] : List Char).getLast? ≠ some '\\' ∧
    decode_ts_chars (['a', 'b'] ++ ['\\']) = decode_ts_chars ['a', 'b'] ++ ['\\'] :=
  ⟨by decide, c9_decode_ts_total_trailing_backslash.2 ['a', 'b'] (by decide)⟩

/-- Counterexample to claim C4 as stated: the valid configuration with
`target_channel = 0` does not survive the round trip — `to_dict` stores
`0`, and `from_dict` evaluates `data.get("target-channel") or
data.get("target_channel")`, whose Python `or` discards the falsy `0` and
yields `None`. -/
theorem c4_counterexample :
    PersistentConfig.load (PersistentConfig.save cfg_zero) ≠ cfg_zero := by
  intro h
  have h2 := congrArg (fun c => c.policies.target_channel) h
  simp [cfg_zero, PersistentConfig.save, PersistentConfig.load, Policies.to_dict,
    Policies.from_saved] at h2

/-- Claim C4 (amended): saving and then loading restores the
configuration exactly, provided `target_channel` is not the integer `0`
and `target_channel_name` is not the empty string (both falsy values are
flattened to `None` by the `or`-fallbacks in `Policies.from_dict`). -/
theorem c4_roundtrip (c : PersistentConfig)
    (h0 : c.policies.target_channel ≠ some 0)
    (h1 : c.policies.target_channel_name ≠ some "") :
    PersistentConfig.load (PersistentConfig.save c) = c := by
  obtain ⟨a, i, p⟩ := c
  obtain ⟨amu, ra, tc, tcn, si⟩ := p
  have ha : (Finset.sort (· ≤ ·) a).toFinset = a := Finset.sort_toFinset _ _
  have hi : (Finset.sort (· ≤ ·) i).toFinset = i := Finset.sort_toFinset _ _
  simp only [PersistentConfig.save, PersistentConfig.load, Policies.to_dict,
    Policies.from_saved] at *
  cases tc <;> cases tcn <;> simp_all

/-- Witness for C4 at a concrete configuration with a nonzero target
channel, a non-empty target channel name and a non-empty approved set. -/
theorem c4_witness :
    (cfg_rt.policies.target_channel ≠ some 0 ∧
     cfg_rt.policies.target_channel_name ≠ some "") ∧
    PersistentConfig.load (PersistentConfig.save cfg_rt) = cfg_rt :=
  ⟨⟨by decide, by decide⟩, c4_roundtrip cfg_rt (by decide) (by decide)⟩

/-- Counterexample to claim C1 as stated: `_mute_client` awaits
`send_command` and then sets `muted_by_us = True` without inspecting the
response.  With a connection object attached, even the synthetic
not-connected response (which is not `error id=0`, i.e. the command did
not complete successfully) leaves the client marked as muted by us,
contrary to "sets muted_by_us only if the command completed successfully"
and "if the mute command fails ... muted_by_us stays false". -/
theorem c1_counterexample :
    is_ok not_connected_resp = false ∧
    (mute_client_run true not_connected_resp client_x).muted_by_us = true := by
  exact ⟨by decide, rfl⟩

/-- Claim C1 (amended): `_apply_policies` requests exactly one mute for a
participant iff it is in scope, `auto_mute_unknown` is on, and the
participant is neither approved nor ignored nor already marked muted; the
spawned `_mute_client` then sets `muted_by_us` unconditionally after the
command returns, whatever the response was (success, failure, or the
synthetic not-connected line), and leaves the client untouched only when
no connection object is attached. -/
theorem c1_mute_request (s : TSRailState) (c : Client) (resp : List String) :
    ((s.apply_policies c).2 = true ↔
      (s.in_scope c = true ∧ s.config.policies.auto_mute_unknown = true ∧
       c.uid ∉ s.config.approved_uids ∧ c.uid ∉ s.config.ignore_uids ∧
       c.muted_by_us = false)) ∧
    (mute_client_run true resp c).muted_by_us = true ∧
    mute_client_run false resp c = c := by
  refine ⟨?_, rfl, rfl⟩
  simp [TSRailState.apply_policies, Bool.and_eq_true, Bool.not_eq_true',
    decide_eq_true_eq, decide_eq_false_iff_not]
  tauto

/-- Witness for C1 at a concrete state, client and failing response. -/
theorem c1_witness :
    (mute_client_run true not_connected_resp client_x).muted_by_us = true ∧
    mute_client_run false not_connected_resp client_x = client_x :=
  ⟨(c1_mute_request st_c5 client_x not_connected_resp).2.1,
   (c1_mute_request st_c5 client_x not_connected_resp).2.2⟩

/-- A payload step of the reader loop: a non-empty line that is neither a
notification, nor a keepalive, nor an `error ` terminator is appended to
the pending buffer and changes nothing else. -/
theorem reader_step_payload (st : ReaderState) (l : String)
    (hpend : st.pending_active = true)
    (h1 : l ≠ "") (h2 : py_startswith l "notify" = false)
    (h3 : py_startswith l "error id=1796" = false)
    (h4 : py_startswith l "error " = false) :
    reader_step st l = { st with buffer := st.buffer ++ [l] } := by
  simp [reader_step, h1, h2, h3, h4, hpend]

/-- A run of payload lines only extends the pending buffer. -/
theorem reader_run_payload (p : List String) (st : ReaderState)
    (hpend : st.pending_active = true)
    (hp : ∀ l ∈ p, l ≠ "" ∧ py_startswith l "notify" = false ∧
      py_startswith l "error id=1796" = false ∧ py_startswith l "error " = false) :
    reader_run st p = { st with buffer := st.buffer ++ p } := by
  induction p generalizing st with
  | nil => simp [reader_run]
  | cons l rest ih =>
    obtain ⟨h1, h2, h3, h4⟩ := hp l (by simp)
    have hstep := reader_step_payload st l hpend h1 h2 h3 h4
    have : reader_run st (l :: rest) = reader_run (reader_step st l) rest := rfl
    rw [this, hstep,
      ih { st with buffer := st.buffer ++ [l] } hpend (fun x hx => hp x (by simp [hx]))]
    simp

/-- Claim C2: while a request is pending, a received `error id=1796`
keepalive line makes the session write a bare newline upstream, is not
appended to the pending buffer and does not complete the request; the
request then completes exactly on the next non-keepalive line starting
with `error `, and the response is all payload lines received before and
after the keepalive followed by that terminator line. -/
theorem c2_keepalive_mid_request (p1 p2 : List String) (k t : String)
    (hp : ∀ l ∈ p1 ++ p2, l ≠ "" ∧ py_startswith l "notify" = false ∧
      py_startswith l "error id=1796" = false ∧ py_startswith l "error " = false)
    (hk1 : k ≠ "") (hkn : py_startswith k "notify" = false)
    (hk : py_startswith k "error id=1796" = true)
    (ht1 : t ≠ "") (htn : py_startswith t "notify" = false)
    (htk : py_startswith t "error id=1796" = false)
    (ht : py_startswith t "error " = true) :
    reader_run pending_start (p1 ++ [k]) =
      { pending_active := true, buffer := p1, result := none,
        writes := ["\n"], notifications := [] } ∧
    reader_run pending_start (p1 ++ [k] ++ p2 ++ [t]) =
      { pending_active := true, buffer := p1 ++ p2 ++ [t],
        result := some (p1 ++ p2 ++ [t]), writes := ["\n"], notifications := [] } := by
  have hp1 : ∀ l ∈ p1, l ≠ "" ∧ py_startswith l "notify" = false ∧
      py_startswith l "error id=1796" = false ∧ py_startswith l "error " = false :=
    fun l hl => hp l (by simp [hl])
  have hp2 : ∀ l ∈ p2, l ≠ "" ∧ py_startswith l "notify" = false ∧
      py_startswith l "error id=1796" = false ∧ py_startswith l "error " = false :=
    fun l hl => hp l (by simp [hl])
  have hrun1 : reader_run pending_start p1 =
      { pending_start with buffer := p1 } := by
    rw [reader_run_payload p1 pending_start rfl hp1]
    simp [pending_start]
  have hstepk : reader_step { pending_start with buffer := p1 } k =
      { pending_active := true, buffer := p1, result := none,
        writes := ["\n"], notifications := [] } := by
    simp [reader_step, hk1, hkn, hk, pending_start]
  have hA : reader_run pending_start (p1 ++ [k]) =
      { pending_active := true, buffer := p1, result := none,
        writes := ["\n"], notifications := [] } := by
    rw [reader_run, List.foldl_append]
    rw [show List.foldl reader_step pending_start p1 = reader_run pending_start p1 from rfl,
      hrun1]
    simpa [reader_run] using hstepk
  refine ⟨hA, ?_⟩
  have hrun2 :
      reader_run
        { pending_active := true, buffer := p1, result := none,
          writes := ["\n"], notifications := [] } p2 =
      { pending_active := true, buffer := p1 ++ p2, result := none,
        writes := ["\n"], notifications := [] } := by
    rw [reader_run_payload p2 _ rfl hp2]
  have hstept :
      reader_step
        { pending_active := true, buffer := p1 ++ p2, result := none,
          writes := ["\n"], notifications := [] } t =
      { pending_active := true, buffer := p1 ++ p2 ++ [t],
        result := some (p1 ++ p2 ++ [t]), writes := ["\n"], notifications := [] } := by
    simp [reader_step, ht1, htn, htk, ht]
  calc reader_run pending_start (p1 ++ [k] ++ p2 ++ [t])
      = reader_run (reader_run (reader_run pending_start (p1 ++ [k])) p2) [t] := by
        simp [reader_run, List.foldl_append]
    _ = { pending_active := true, buffer := p1 ++ p2 ++ [t],
          result := some (p1 ++ p2 ++ [t]), writes := ["\n"], notifications := [] } := by
        rw [hA, hrun2]
        simpa [reader_run] using hstept

/-- Witness for C2: a `channellist`-style exchange with one payload line,
a keepalive, two more payload lines and the final `error id=0` line. -/
theorem c2_witness :
    reader_run pending_start (["cid=1"] ++ ["error id=1796"]) =
      { pending_active := true, buffer := ["cid=1"], result := none,
        writes := ["\n"], notifications := [] } ∧
    reader_run pending_start
        (["cid=1"] ++ ["error id=1796"] ++ ["cid=2", "cid=3"] ++ ["error id=0 msg=ok"]) =
      { pending_active := true, buffer := ["cid=1"] ++ ["cid=2", "cid=3"] ++ ["error id=0 msg=ok"],
        result := some (["cid=1"] ++ ["cid=2", "cid=3"] ++ ["error id=0 msg=ok"]),
        writes := ["\n"], notifications := [] } :=
  c2_keepalive_mid_request ["cid=1"] ["cid=2", "cid=3"] "error id=1796" "error id=0 msg=ok"
    (by decide) (by decide) (by decide) (by decide) (by decide) (by decide) (by decide)
    (by decide)

/-- A line that is empty, a notification, a keepalive, or not an `error `
line never resolves the pending future. -/
theorem reader_step_result_none (st : ReaderState) (l : String)
    (hres : st.result = none)
    (h : py_startswith l "error " = false ∨ py_startswith l "error id=1796" = true ∨
      py_startswith l "notify" = true ∨ l = "") :
    (reader_step st l).result = none := by
  by_cases h0 : l = ""
  · simp [reader_step, h0, hres]
  by_cases hn : py_startswith l "notify" = true
  · simp [reader_step, h0, hn, hres]
  by_cases hk : py_startswith l "error id=1796" = true
  · simp [reader_step, h0, hn, hk, hres]
  by_cases hpd : st.pending_active = true
  · have he : py_startswith l "error " = false := by
      rcases h with h | h | h | h
      · exact h
      · exact absurd h hk
      · exact absurd h hn
      · exact absurd h h0
    simp [reader_step, h0, hn, hk, hpd, he, hres]
  · simp [reader_step, h0, hn, hk, hpd, hres]

/-- A received line sequence with no terminator leaves the pending future
unresolved. -/
theorem reader_run_result_none (lines : List String) (st : ReaderState)
    (hres : st.result = none)
    (h : ∀ l ∈ lines, py_startswith l "error " = false ∨
      py_startswith l "error id=1796" = true ∨ py_startswith l "notify" = true ∨ l = "") :
    (reader_run st lines).result = none := by
  induction lines generalizing st with
  | nil => exact hres
  | cons l rest ih =>
    have hstep := reader_step_result_none st l hres (h l (by simp))
    have : reader_run st (l :: rest) = reader_run (reader_step st l) rest := rfl
    rw [this]
    exact ih _ hstep (fun x hx => h x (by simp [hx]))

/-- Claim C7 (refuted by the code, status code_bug): when the connection
is lost while a request is in flight — the terminator never arrives, the
reader loop ends at EOF and `run` takes its `except`/`finally` path —
nothing resolves the pending future.  In particular it is *not* resolved
with the synthetic `error id=2569 msg=not\sconnected` line (which
`send_command` returns only for calls made while already disconnected):
`await self.pending` blocks forever, holding the session lock. -/
theorem c7_pending_never_resolved (st : ReaderState) (f : ConnFlags)
    (lines : List String) (hres : st.result = none)
    (h : ∀ l ∈ lines, py_startswith l "error " = false ∨
      py_startswith l "error id=1796" = true ∨ py_startswith l "notify" = true ∨ l = "") :
    (on_disconnect (reader_run st lines) f).1.result = none ∧
    (on_disconnect (reader_run st lines) f).1.result ≠ some not_connected_resp := by
  have hr := reader_run_result_none lines st hres h
  simp [on_disconnect, hr]

/-- Witness for C7: a freshly pending request whose connection drops with
no further received lines stays unresolved through the disconnect path. -/
theorem c7_witness :
    (on_disconnect (reader_run pending_start []) ⟨true, true⟩).1.result = none ∧
    (on_disconnect (reader_run pending_start []) ⟨true, true⟩).1.result ≠
      some not_connected_resp :=
  c7_pending_never_resolved pending_start ⟨true, true⟩ [] rfl (by decide)

/-- Counterexample to claim C6 as stated: `target_channel` holding the
*set* value `0` while self sits in channel 5 — the code tests the target
for truthiness, so `0` behaves as unset: the self channel is monitored,
the present counts are nonzero and the unknown list is non-empty, even
though the self channel differs from the set target.  The state is
reached by a `whoami` identity capture, the operator command
`policy target-channel 0` and one enter-view. -/
theorem c6_counterexample :
    st_c6.config.policies.target_channel = some 0 ∧
    st_c6.server_channel_id = some 5 ∧
    st_c6.counts.present_unknown = 1 ∧
    st_c6.build_unknown_users.map (fun e => e.uid) = ["u2"] := by
  exact ⟨by decide, by decide, by decide, by decide⟩

/-- Claim C6 (amended): whenever `target_channel` is set to a *nonzero*
channel id and the self channel is different from it or unset, the
snapshot reports `target_channel_active = false`, `counts` returns zero
for the three present tallies, and both `build_users` and
`build_unknown_users` return empty lists. -/
theorem c6_empty_scope (s : TSRailState) (t : Int)
    (htc : s.config.policies.target_channel = some t) (ht0 : t ≠ 0)
    (hch : s.server_channel_id ≠ some t) :
    s.target_channel_active = false ∧
    s.counts = { approved_total := s.config.approved_uids.card,
                 present_approved := 0, present_unknown := 0, present_ignored := 0 } ∧
    s.build_users = [] ∧
    s.build_unknown_users = [] := by
  have htr : truthy_int s.config.policies.target_channel = true := by
    simp [htc, truthy_int, ht0]
  have hmon : s.monitor_channel_id = none := by
    rw [TSRailState.monitor_channel_id, if_pos htr, htc, if_neg hch]
  refine ⟨?_, ?_, ?_, ?_⟩
  · rw [TSRailState.target_channel_active, htc]
    simp [hch]
  · rw [TSRailState.counts, hmon]
    simp [htr]
  · rw [TSRailState.build_users, hmon]
    simp [htr]
  · rw [TSRailState.build_unknown_users, hmon]
    simp [htr]

/-- Witness for C6: nonzero target channel 6, self in channel 5, one
participant present in channel 5. -/
theorem c6_witness :
    st_c6w.target_channel_active = false ∧
    st_c6w.counts = { approved_total := st_c6w.config.approved_uids.card,
                      present_approved := 0, present_unknown := 0, present_ignored := 0 } ∧
    st_c6w.build_users = [] ∧
    st_c6w.build_unknown_users = [] :=
  c6_empty_scope st_c6w 6 (by decide) (by decide) (by decide)

/-- Counterexample to claim C10 as stated: `target_channel = 0` does
*not* make `target_channel_active` behave as if no target were set —
that method tests `target is not None`, not truthiness, so with the self
channel id also `0` it reports `true`, while with the target cleared it
reports `false`. -/
theorem c10_counterexample :
    st_c10.config.policies.target_channel = some 0 ∧
    st_c10.server_channel_id = some 0 ∧
    st_c10.target_channel_active = true ∧
    (clear_target st_c10).target_channel_active = false := by
  exact ⟨by decide, by decide, by decide, by decide⟩

/-- Claim C10 (amended): with `target_channel = 0`, every consumer that
goes through the truthiness test — `monitor_channel_id`,
`_apply_policies`, `counts`, `build_users`, `build_unknown_users` —
behaves exactly as if no target channel were set (the self channel is
monitored); `target_channel_active` is the exception: it tests
`is not None`, so it reports true precisely when the self channel id is
also `0`, and false otherwise. -/
theorem c10_zero_target_as_unset (s : TSRailState)
    (h : s.config.policies.target_channel = some 0) :
    s.monitor_channel_id = (clear_target s).monitor_channel_id ∧
    (∀ c : Client, s.apply_policies c = (clear_target s).apply_policies c) ∧
    s.counts = (clear_target s).counts ∧
    s.build_users = (clear_target s).build_users ∧
    s.build_unknown_users = (clear_target s).build_unknown_users ∧
    s.target_channel_active = decide (s.server_channel_id = some 0) := by
  have hmon : s.monitor_channel_id = (clear_target s).monitor_channel_id := by
    simp [TSRailState.monitor_channel_id, clear_target, h, truthy_int]
  refine ⟨hmon, ?_, ?_, ?_, ?_, ?_⟩
  · intro c
    simp [TSRailState.apply_policies, TSRailState.in_scope, clear_target, hmon, h, truthy_int]
  · simp [TSRailState.counts, TSRailState.skip_self, clear_target, hmon, h, truthy_int]
  · simp [TSRailState.build_users, TSRailState.users_filtered, TSRailState.skip_self,
      clear_target, hmon, h, truthy_int]
  · simp [TSRailState.build_unknown_users, TSRailState.unknowns_filtered,
      TSRailState.skip_self, clear_target, hmon, h, truthy_int]
  · rw [TSRailState.target_channel_active, h]
    cases hs : s.server_channel_id with
    | none => simp
    | some u => simp

/-- Witness for C10 at the concrete zero-target state. -/
theorem c10_witness :
    st_c10.counts = (clear_target st_c10).counts ∧
    st_c10.target_channel_active = decide (st_c10.server_channel_id = some 0) :=
  ⟨(c10_zero_target_as_unset st_c10 (by decide)).2.2.1,
   (c10_zero_target_as_unset st_c10 (by decide)).2.2.2.2.2⟩

/-- Counterexample to claim C8 as stated: four approved in-scope
participants entered with nicknames `"b"`, `""`, `"a"`, `"a"` (the
duplicate-nickname pair carrying uids `"z"` then `"b"`).  `build_users`
sorts them as `["", "a", "a", "b"]` with the duplicate pair in registry
insertion order (`"z"` before `"b"`): the empty nickname is placed
*first*, not last, and duplicate lowercased nicknames are *not* ordered
by uid ascending — the claimed order would be
`[("a","b"), ("a","z"), ("b","u1"), ("","u2")]`. -/
theorem c8_counterexample :
    st_c8.build_users.map (fun e => (e.nickname, e.uid)) =
      [("", "u2"), ("a", "z"), ("a", "b"), ("b", "u1")] ∧
    st_c8.build_users.map (fun e => (e.nickname, e.uid)) ≠
      [("a", "b"), ("a", "z"), ("b", "u1"), ("", "u2")] := by
  exact ⟨by decide, by decide⟩

/-- Claim C8 (amended): outside the empty-scope early return,
`build_users` returns exactly the in-scope, non-self participants
filtered by `require_approved` and `show_ignored` (as a permutation of
the filter result), sorted by lowercased nickname; the sort is stable, so
entries with equal lowercased nicknames keep their registry insertion
order (there is no uid tie-break), and empty nicknames sort first (the
empty key is minimal). -/
theorem c8_users_sorted_stable (s : TSRailState)
    (h : (truthy_int s.config.policies.target_channel && s.monitor_channel_id.isNone) = false) :
    List.Pairwise entry_nick_le s.build_users ∧
    s.build_users.Perm (s.users_filtered.map user_entry_of) ∧
    (∀ a b : Client, nick_le a b → List.Sublist [a, b] s.users_filtered →
      List.Sublist [user_entry_of a, user_entry_of b] s.build_users) := by
  have hbu : s.build_users = (py_sort_by_nick s.users_filtered).map user_entry_of := by
    rw [TSRailState.build_users, if_neg (by simp [h])]
  refine ⟨?_, ?_, ?_⟩
  · rw [hbu, py_sort_by_nick]
    exact List.Pairwise.map user_entry_of (fun a b hab => hab)
      (List.sorted_insertionSort nick_le s.users_filtered)
  · rw [hbu, py_sort_by_nick]
    exact (List.perm_insertionSort nick_le s.users_filtered).map user_entry_of
  · intro a b hab hsub
    rw [hbu, py_sort_by_nick]
    exact (List.pair_sublist_insertionSort hab hsub).map user_entry_of

/-- Witness for C8 at the concrete registry `st_c8`. -/
theorem c8_witness :
    List.Pairwise entry_nick_le st_c8.build_users ∧
    st_c8.build_users.Perm (st_c8.users_filtered.map user_entry_of) :=
  ⟨(c8_users_sorted_stable st_c8 (by decide)).1,
   (c8_users_sorted_stable st_c8 (by decide)).2.1⟩

/-- Counterexample to claim C5 as stated: after a `whoami` identity
capture, an enter-view for the own clid carrying no
`client_unique_identifier` stores `own_uid = ""`; a second anonymous
enter-view registers a participant with `uid = ""`.  That participant is
returned by `build_unknown_users` even though its uid equals `own_uid`
(the self filter requires both uids to be non-empty, and there is no
`own_clid` fallback in the projections). -/
theorem c5_counterexample :
    st_c5.own_uid = some "" ∧
    st_c5.build_unknown_users.map (fun e => e.uid) = [""] := by
  exact ⟨by decide, by decide⟩

/-- Claim C5 (amended): whenever `own_uid` is non-empty, no entry of
`build_users` or `build_unknown_users` carries that uid — the projections
skip any participant whose (then necessarily non-empty) uid equals
`own_uid`.  When `own_uid` is empty or unset the projections perform no
self filtering at all; the self participant itself is normally absent
because ingestion skips its clid, not because of any clid fallback in the
projections. -/
theorem c5_self_excluded (s : TSRailState) (u : String)
    (hu : s.own_uid = some u) (hne : u ≠ "") :
    (∀ e ∈ s.build_users, e.uid ≠ u) ∧
    (∀ e ∈ s.build_unknown_users, e.uid ≠ u) := by
  have hskip : ∀ c : Client, c.uid = u → s.skip_self c = true := by
    intro c hc
    simp [TSRailState.skip_self, hu, hc, hne, truthy_str]
  constructor
  · intro e he heq
    rw [TSRailState.build_users] at he
    split at he
    · simp at he
    · obtain ⟨c, hc, rfl⟩ := List.mem_map.mp he
      rw [py_sort_by_nick] at hc
      have hc2 := (List.mem_insertionSort nick_le).mp hc
      have hc3 := (List.mem_filter.mp hc2).2
      have : c.uid = u := heq
      rw [hskip c this] at hc3
      simp at hc3
  · intro e he heq
    rw [TSRailState.build_unknown_users] at he
    split at he
    · simp at he
    · obtain ⟨c, hc, rfl⟩ := List.mem_map.mp he
      rw [py_sort_by_nick] at hc
      have hc2 := (List.mem_insertionSort nick_le).mp hc
      have hc3 := (List.mem_filter.mp hc2).2
      have : c.uid = u := heq
      rw [hskip c this] at hc3
      simp at hc3

/-- Witness for C5 at a registry whose `own_uid` is the non-empty
`"bot"`, with one approved participant present. -/
theorem c5_witness :
    (∀ e ∈ st_c5w.build_users, e.uid ≠ "bot") ∧
    (∀ e ∈ st_c5w.build_unknown_users, e.uid ≠ "bot") :=
  c5_self_excluded st_c5w "bot" (by decide) (by decide)

/-- The flags written by `_apply_policies` are by construction consistent
with the state's configuration. -/
theorem flagsC_apply_policies (s : TSRailState) (c : Client) :
    flagsC s.config (s.apply_policies c).1 :=
  ⟨rfl, rfl⟩

/-- Mapping a per-entry transformation whose results are flag-consistent
yields a flag-consistent registry. -/
theorem flags_ok₂_map_all (cfg' : PersistentConfig)
    (g : String × Client → String × Client) (l : List (String × Client))
    (hg : ∀ p ∈ l, flagsC cfg' (g p).2) : flags_ok₂ cfg' (l.map g) := by
  intro p hp
  obtain ⟨q, hq, rfl⟩ := List.mem_map.mp hp
  exact hg q hq

/-- Re-applying policy over the whole registry restores the flag
invariant unconditionally. -/
theorem flags_ok_apply_policies_all (s : TSRailState) : flags_ok s.apply_policies_all :=
  flags_ok₂_map_all s.config _ s.clients (fun p _ => flagsC_apply_policies s p.2)

/-- Membership in an upserted dict: the new binding or an old one. -/
theorem mem_upsert {k : String} {v : Client} {l : List (String × Client)}
    {p : String × Client} (h : p ∈ upsert k v l) : p = (k, v) ∨ p ∈ l := by
  induction l with
  | nil => simpa [upsert] using h
  | cons q rest ih =>
    rw [upsert] at h
    by_cases hq : q.1 = k
    · rw [if_pos hq] at h
      rcases List.mem_cons.mp h with h | h
      · exact Or.inl h
      · exact Or.inr (List.mem_cons_of_mem _ h)
    · rw [if_neg hq] at h
      rcases List.mem_cons.mp h with h | h
      · exact Or.inr (h ▸ List.mem_cons_self _ _)
      · rcases ih h with h2 | h2
        · exact Or.inl h2
        · exact Or.inr (List.mem_cons_of_mem _ h2)

/-- Lemma: `update_clid` with a function preserving uid and flags preserves
the invariant. -/
theorem flags_ok₂_update_keep (cfg : PersistentConfig) (k : String) (f : Client → Client)
    (hf : ∀ c, (f c).uid = c.uid ∧ (f c).approved = c.approved ∧ (f c).ignored = c.ignored)
    (l : List (String × Client)) (h : flags_ok₂ cfg l) :
    flags_ok₂ cfg (update_clid k f l) := by
  intro p hp
  rw [update_clid] at hp
  obtain ⟨q, hq, rfl⟩ := List.mem_map.mp hp
  by_cases hk : q.1 = k
  · simp only [if_pos hk]
    obtain ⟨hu, ha, hi⟩ := hf q.2
    obtain ⟨h1, h2⟩ := h q hq
    exact ⟨by rw [ha, hu, h1], by rw [hi, hu, h2]⟩
  · simp only [if_neg hk]
    exact h q hq

/-- Lemma: `update_clid` with `_apply_policies` preserves the invariant (and
restores it on the touched entry). -/
theorem flags_ok₂_update_policies (s : TSRailState) (k : String)
    (l : List (String × Client)) (h : flags_ok₂ s.config l) :
    flags_ok₂ s.config (update_clid k (fun c => (s.apply_policies c).1) l) := by
  intro p hp
  rw [update_clid] at hp
  obtain ⟨q, hq, rfl⟩ := List.mem_map.mp hp
  by_cases hk : q.1 = k
  · simp only [if_pos hk]
    exact flagsC_apply_policies s q.2
  · simp only [if_neg hk]
    exact h q hq

/-- Lemma: `_client_enter` preserves the flag invariant. -/
theorem flags_ok_client_enter (s : TSRailState) (clid uid nickname : String)
    (cid : Option Int) (h : flags_ok s) :
    flags_ok (s.client_enter clid uid nickname cid) := by
  have key : ∀ s1 : TSRailState, s1.config = s.config → s1.clients = s.clients →
      flags_ok (if s1.own_clid = some clid then
          { s1 with own_uid := some uid, own_nickname := some nickname }
        else
          let c : Client :=
            { clid := clid, uid := uid, nickname := nickname, channel_id := cid
              approved := decide (uid ∈ s1.config.approved_uids)
              ignored := decide (uid ∈ s1.config.ignore_uids) }
          let s2 := { s1 with clients := upsert clid c s1.clients }
          { s2 with clients := update_clid clid (fun c0 => (s2.apply_policies c0).1) s2.clients }) := by
    intro s1 hcfg hcl
    by_cases hown : s1.own_clid = some clid
    · rw [if_pos hown]
      show flags_ok₂ s1.config s1.clients
      rw [hcfg, hcl]; exact h
    · rw [if_neg hown]
      refine flags_ok₂_update_policies _ clid _ ?_
      intro q hq
      rcases mem_upsert hq with h2 | h2
      · subst h2
        exact ⟨rfl, rfl⟩
      · rw [hcfg] at *
        exact h q (hcl ▸ h2)
  exact key (if s.server_channel_id = none then { s with server_channel_id := cid } else s)
    (by by_cases hsv : s.server_channel_id = none
        · rw [if_pos hsv]
        · rw [if_neg hsv])
    (by by_cases hsv : s.server_channel_id = none
        · rw [if_pos hsv]
        · rw [if_neg hsv])

/-- Lemma: `_client_left` preserves the flag invariant. -/
theorem flags_ok_client_left (s : TSRailState) (clid : String) (h : flags_ok s) :
    flags_ok (s.client_left clid) := by
  rw [TSRailState.client_left]
  by_cases h1 : clid ≠ "" ∧ s.own_clid = some clid
  · rw [if_pos h1]; exact h
  · rw [if_neg h1]
    by_cases h2 : clid ≠ "" ∧ (lookup_clid clid s.clients).isSome
    · rw [if_pos h2]
      intro p hp
      exact h p (List.mem_filter.mp hp).1
    · rw [if_neg h2]; exact h

/-- Lemma: `_client_moved` preserves the flag invariant. -/
theorem flags_ok_client_moved (s : TSRailState) (clid : String) (cid : Option Int)
    (h : flags_ok s) : flags_ok (s.client_moved clid cid) := by
  have key : ∀ s1 : TSRailState, flags_ok s1 →
      flags_ok (if clid ≠ "" ∧ (lookup_clid clid s1.clients).isSome then
          let s2 := { s1 with
            clients := update_clid clid (fun c => { c with channel_id := cid }) s1.clients }
          { s2 with clients := update_clid clid (fun c => (s2.apply_policies c).1) s2.clients }
        else s1) := by
    intro s1 h1
    by_cases hc : clid ≠ "" ∧ (lookup_clid clid s1.clients).isSome
    · rw [if_pos hc]
      refine flags_ok₂_update_policies _ clid _ ?_
      exact flags_ok₂_update_keep s1.config clid (fun c => { c with channel_id := cid })
        (fun c => ⟨rfl, rfl, rfl⟩) s1.clients h1
    · rw [if_neg hc]; exact h1
  refine key (if clid ≠ "" ∧ s.own_clid = some clid then
      TSRailState.apply_policies_all { s with server_channel_id := cid } else s) ?_
  by_cases hown : clid ≠ "" ∧ s.own_clid = some clid
  · rw [if_pos hown]; exact flags_ok_apply_policies_all _
  · rw [if_neg hown]; exact h

/-- Lemma: `_talk_status` preserves the flag invariant. -/
theorem flags_ok_talk_status (s : TSRailState) (clid status : String) (h : flags_ok s) :
    flags_ok (s.talk_status clid status) := by
  rw [TSRailState.talk_status]
  by_cases h1 : clid ≠ "" ∧ (lookup_clid clid s.clients).isSome
  · rw [if_pos h1]
    exact flags_ok₂_update_keep s.config clid
      (fun c => { c with talking := decide (status = "1") })
      (fun c => ⟨rfl, rfl, rfl⟩) s.clients h
  · rw [if_neg h1]; exact h

/-- Two states with the same configuration and the same registry have the
same flag invariant. -/
theorem flags_ok_of_eq (s s' : TSRailState) (h : flags_ok s)
    (hcfg : s'.config = s.config) (hcl : s'.clients = s.clients) : flags_ok s' := by
  intro p hp
  rw [hcfg]
  exact h p (hcl ▸ hp)

/-- Lemma: `_client_updated` preserves the flag invariant. -/
theorem flags_ok_client_updated (s : TSRailState) (clid : String)
    (nickname : Option String) (h : flags_ok s) :
    flags_ok (s.client_updated clid nickname) := by
  by_cases h1 : clid = "" ∨ (lookup_clid clid s.clients).isNone
  · refine flags_ok_of_eq s _ h ?_ ?_ <;>
      (rw [TSRailState.client_updated.eq_def, if_pos h1]
       split <;> rfl)
  · cases nickname with
    | some n =>
      have hb : s.client_updated clid (some n) =
          { s with clients := update_clid clid (fun c => { c with nickname := n }) s.clients } := by
        rw [TSRailState.client_updated.eq_def, if_neg h1]
      rw [hb]
      exact flags_ok₂_update_keep s.config clid (fun c => { c with nickname := n })
        (fun c => ⟨rfl, rfl, rfl⟩) s.clients h
    | none =>
      refine flags_ok_of_eq s _ h ?_ ?_ <;>
        rw [TSRailState.client_updated.eq_def, if_neg h1]

/-- Lemma: `_update_identity` preserves the flag invariant. -/
theorem flags_ok_update_identity (s : TSRailState) (clid_field : String)
    (cid_field : Option Int) (h : flags_ok s) :
    flags_ok (s.update_identity clid_field cid_field) := by
  refine flags_ok_of_eq s _ h ?_ ?_ <;>
    (rw [TSRailState.update_identity.eq_def]
     cases cid_field <;> by_cases h1 : clid_field ≠ "" <;> simp [h1])

/-- Lemma: `approve_uid` preserves the flag invariant. -/
theorem flags_ok_approve (s : TSRailState) (uid : String) (h : flags_ok s) :
    flags_ok (s.approve_uid uid) := by
  intro p hp
  obtain ⟨q, hq, rfl⟩ := List.mem_map.mp hp
  obtain ⟨hqa, hqi⟩ := h q hq
  by_cases hu : q.2.uid = uid
  · simp only [if_pos hu]
    refine ⟨?_, ?_⟩
    · show true = decide (q.2.uid ∈ insert uid s.config.approved_uids)
      simp [hu]
    · exact hqi
  · simp only [if_neg hu]
    refine ⟨?_, ?_⟩
    · show q.2.approved = decide (q.2.uid ∈ insert uid s.config.approved_uids)
      have he : decide (q.2.uid ∈ insert uid s.config.approved_uids) =
          decide (q.2.uid ∈ s.config.approved_uids) :=
        decide_eq_decide.mpr (by simp [Finset.mem_insert, hu])
      rw [hqa, he]
    · exact hqi

/-- Lemma: `unapprove_uid` preserves the flag invariant. -/
theorem flags_ok_unapprove (s : TSRailState) (uid : String) (h : flags_ok s) :
    flags_ok (s.unapprove_uid uid) := by
  intro p hp
  obtain ⟨q, hq, rfl⟩ := List.mem_map.mp hp
  obtain ⟨hqa, hqi⟩ := h q hq
  by_cases hu : q.2.uid = uid
  · simp only [if_pos hu]
    refine ⟨?_, ?_⟩
    · show false = decide (q.2.uid ∈ s.config.approved_uids.erase uid)
      simp [hu]
    · exact hqi
  · simp only [if_neg hu]
    refine ⟨?_, ?_⟩
    · show q.2.approved = decide (q.2.uid ∈ s.config.approved_uids.erase uid)
      have he : decide (q.2.uid ∈ s.config.approved_uids.erase uid) =
          decide (q.2.uid ∈ s.config.approved_uids) :=
        decide_eq_decide.mpr (by simp [Finset.mem_erase, hu])
      rw [hqa, he]
    · exact hqi

/-- Lemma: `ignore_uid` preserves the flag invariant. -/
theorem flags_ok_ignore (s : TSRailState) (uid : String) (h : flags_ok s) :
    flags_ok (s.ignore_uid uid) := by
  intro p hp
  obtain ⟨q, hq, rfl⟩ := List.mem_map.mp hp
  obtain ⟨hqa, hqi⟩ := h q hq
  by_cases hu : q.2.uid = uid
  · simp only [if_pos hu]
    refine ⟨hqa, ?_⟩
    · show true = decide (q.2.uid ∈ insert uid s.config.ignore_uids)
      simp [hu]
  · simp only [if_neg hu]
    refine ⟨hqa, ?_⟩
    · show q.2.ignored = decide (q.2.uid ∈ insert uid s.config.ignore_uids)
      have he : decide (q.2.uid ∈ insert uid s.config.ignore_uids) =
          decide (q.2.uid ∈ s.config.ignore_uids) :=
        decide_eq_decide.mpr (by simp [Finset.mem_insert, hu])
      rw [hqi, he]

/-- Lemma: `unignore_uid` preserves the flag invariant. -/
theorem flags_ok_unignore (s : TSRailState) (uid : String) (h : flags_ok s) :
    flags_ok (s.unignore_uid uid) := by
  intro p hp
  obtain ⟨q, hq, rfl⟩ := List.mem_map.mp hp
  obtain ⟨hqa, hqi⟩ := h q hq
  by_cases hu : q.2.uid = uid
  · simp only [if_pos hu]
    refine ⟨hqa, ?_⟩
    · show false = decide (q.2.uid ∈ s.config.ignore_uids.erase uid)
      simp [hu]
  · simp only [if_neg hu]
    refine ⟨hqa, ?_⟩
    · show q.2.ignored = decide (q.2.uid ∈ s.config.ignore_uids.erase uid)
      have he : decide (q.2.uid ∈ s.config.ignore_uids.erase uid) =
          decide (q.2.uid ∈ s.config.ignore_uids) :=
        decide_eq_decide.mpr (by simp [Finset.mem_erase, hu])
      rw [hqi, he]

/-- Every registry mutation preserves the flag invariant. -/
theorem flags_ok_apply_op (s : TSRailState) (op : Op) (h : flags_ok s) :
    flags_ok (apply_op s op) := by
  cases op with
  | enter clid uid nickname cid => exact flags_ok_client_enter s clid uid nickname cid h
  | left_view clid => exact flags_ok_client_left s clid h
  | moved clid cid => exact flags_ok_client_moved s clid cid h
  | talk clid status => exact flags_ok_talk_status s clid status h
  | updated clid nickname => exact flags_ok_client_updated s clid nickname h
  | identity clid_field cid_field => exact flags_ok_update_identity s clid_field cid_field h
  | approve uid => exact flags_ok_approve s uid h
  | unapprove uid => exact flags_ok_unapprove s uid h
  | ignore_u uid => exact flags_ok_ignore s uid h
  | unignore_u uid => exact flags_ok_unignore s uid h
  | set_target cid name => exact flags_ok_apply_policies_all _
  | resync entries => exact flags_ok_apply_policies_all _
  | clear_c => intro p hp; exact absurd hp (List.not_mem_nil p)
  | mute_done_op clid =>
    exact flags_ok₂_update_keep s.config clid (fun c => { c with muted_by_us := true })
      (fun c => ⟨rfl, rfl, rfl⟩) s.clients h

/-- Claim C3: after any sequence of registry mutations — notification
handling, wholesale replacement on resync, the operator uid-set commands,
`apply_target_channel`, registry clearing and mute-task completion —
every registered participant satisfies `approved = (uid ∈ approved_uids)`
and `ignored = (uid ∈ ignore_uids)`. -/
theorem c3_flags_invariant (cfg : PersistentConfig) (ops : List Op) :
    flags_ok (run_ops (init_state cfg) ops) := by
  have hinit : flags_ok (init_state cfg) := by
    intro p hp
    exact absurd hp (List.not_mem_nil p)
  suffices key : ∀ s : TSRailState, flags_ok s → flags_ok (run_ops s ops) from key _ hinit
  induction ops with
  | nil => intro s hs; exact hs
  | cons op rest ih =>
    intro s hs
    exact ih _ (flags_ok_apply_op s op hs)

/-- Witness for C3: the invariant holds concretely after a mixed sequence
of mutations starting from the round-trip configuration. -/
theorem c3_witness : flags_ok (run_ops (init_state cfg_rt) ops_c3w) :=
  c3_flags_invariant cfg_rt ops_c3w
